import Mathlib

/-!
# glog: a console logger that decorates messages with time, call site and severity

A shallow embedding of `log.go`.

* Go strings are byte sequences: `GoString = List UInt8`.  Every string constant of the
  package is ASCII, so a constant is the list of its code points.
* Go `int` values are integers; `&` is `Int.land`, `|` is `Int.lor`.  The one addition of
  the package, `3 + l.skip`, is wrapped to 64 bits by `toInt`.
* The surroundings of the package (the clock, the call stack, the environment variable
  `PWD`, standard output, and the rendering of operands supplied by the user) are the
  fields of `Env`.
* A logging call returns the new state of the logger together with an `Outcome`: the
  line handed to the single write and what the write returned, or a run-time panic.
-/

namespace Glog

/-! ## Strings -/

abbrev Byte := UInt8

abbrev GoString := List Byte

/-- Bytes of an ASCII string constant. -/
def ascii (s : String) : GoString := s.toList.map (fun c => c.toNat.toUInt8)

/-- Decimal rendering of an integer, as `%d` prints it. -/
def itoa (n : Int) : GoString := ascii (toString n)

/-- Go `strings.TrimPrefix(s, p)`: `s` without the leading `p` when `s` starts with `p`,
and `s` itself otherwise. -/
def TrimPrefix (s p : GoString) : GoString :=
  if p.isPrefixOf s then s.drop p.length else s

/-- Go slice expression `s[i:]`: panics (`none`) when `i` exceeds the length of `s`. -/
def sliceFrom (s : GoString) (i : Nat) : Option GoString :=
  if i ≤ s.length then some (s.drop i) else none

/-! ## The fragment of `fmt.Sprintf` used by the package

Operands are strings and ints; the verbs are `%s`, `%d`, `%v` and `%%`.  The
diagnostics that `fmt` prints in place of an error (`%!(NOVERB)`, `%!v(MISSING)`,
`%!v(type=value)`, `%!(EXTRA ...)`) are reproduced.  Flags, widths and the remaining
verbs are not used by any format of this package and are not modelled. -/

inductive Arg where
  | str (s : GoString)
  | int (n : Int)

/-- Name of the dynamic type of an operand, as `fmt` prints it in diagnostics. -/
def Arg.typeName : Arg → GoString
  | .str _ => ascii "string"
  | .int _ => ascii "int"

/-- Rendering of an operand under `%v`. -/
def Arg.value : Arg → GoString
  | .str s => s
  | .int n => itoa n

/-- Diagnostic for a verb that does not fit its operand: `%!verb(type=value)`. -/
def badVerb (v : Byte) (a : Arg) : GoString :=
  ascii "%!" ++ [v] ++ ascii "(" ++ a.typeName ++ ascii "=" ++ a.value ++ ascii ")"

/-- Rendering of one operand under the verb byte `v` (`s` is 115, `d` is 100, `v` is 118). -/
def formatVerb (v : Byte) (a : Arg) : GoString :=
  match a with
  | .str s => if v = 115 ∨ v = 118 then s else badVerb v a
  | .int n => if v = 100 ∨ v = 118 then itoa n else badVerb v a

/-- Operands left over after the format is consumed, joined by a comma and a space. -/
def extraArgs : List Arg → GoString
  | [] => []
  | [a] => a.typeName ++ ascii "=" ++ a.value
  | a :: b :: rest => a.typeName ++ ascii "=" ++ a.value ++ ascii ", " ++ extraArgs (b :: rest)

/-- Diagnostic for left-over operands: nothing when there is none, else `%!(EXTRA ...)`. -/
def extra (args : List Arg) : GoString :=
  match args with
  | [] => []
  | _ :: _ => ascii "%!(EXTRA " ++ extraArgs args ++ ascii ")"

/-- Go `fmt.Sprintf(format, args...)` on the fragment above (byte 37 is the percent sign). -/
def Sprintf : GoString → List Arg → GoString
  | [], args => extra args
  | c :: rest, args =>
    if c ≠ 37 then c :: Sprintf rest args
    else
      match rest with
      | [] => ascii "%!(NOVERB)" ++ extra args
      | v :: rest2 =>
        if v = 37 then (37 : Byte) :: Sprintf rest2 args
        else
          match args with
          | [] => ascii "%!" ++ [v] ++ ascii "(MISSING)" ++ Sprintf rest2 []
          | a :: args2 => formatVerb v a ++ Sprintf rest2 args2

/-! ## Constants and tables of the package -/

def MetaDate : Int := 1
def MetaTime : Int := 2
def MetaZone : Int := 4
def MetaCallerFull : Int := 8
def MetaCallerShort : Int := 16
def MetaFull : Int := Int.lor (Int.lor (Int.lor MetaDate MetaTime) MetaZone) MetaCallerFull
def MetaShort : Int := Int.lor MetaTime MetaCallerShort
def MetaDefault : Int := Int.lor (Int.lor (Int.lor MetaDate MetaTime) MetaZone) MetaCallerShort

def LogTypePrint : Int := 1
def LogTypeInfo : Int := 2
def LogTypeWarn : Int := 4
def LogTypeDebug : Int := 8
def LogTypeError : Int := 16
def LogTypeDefault : Int :=
  Int.lor (Int.lor (Int.lor (Int.lor LogTypePrint LogTypeInfo) LogTypeWarn) LogTypeDebug)
    LogTypeError

/-- Map `timeFormat`; a key that is absent yields the empty string. -/
def timeFormat (k : Int) : GoString :=
  if k = MetaDate then ascii "2006-01-02"
  else if k = MetaTime then ascii "T15:04:05"
  else if k = MetaZone then ascii "Z07:00"
  else []

/-- Map `logType`; a key that is absent yields the empty string. -/
def logType (k : Int) : GoString :=
  if k = LogTypePrint then ascii ""
  else if k = LogTypeInfo then ascii "[INFO] "
  else if k = LogTypeWarn then ascii "[WARN] "
  else if k = LogTypeDebug then ascii "[DEBUG] "
  else if k = LogTypeError then ascii "[ERROR] "
  else []

def White : GoString := ascii "\x1b[3;30m%s\x1b[0m"
def Cyan : GoString := ascii "\x1b[1;36m%s\x1b[0m"
def Yellow : GoString := ascii "\x1b[1;33m%s\x1b[0m"
def Purple : GoString := ascii "\x1b[1;35m%s\x1b[0m"
def Red : GoString := ascii "\x1b[1;31m%s\x1b[0m"
def Green : GoString := ascii "\x1b[1;32m%s\x1b[0m"
def Blue : GoString := ascii "\x1b[1;34m%s\x1b[0m"
def Ash : GoString := ascii "\x1b[1;37m%s\x1b[0m"

/-- Map `coloredStr`; a key that is absent yields the empty string. -/
def coloredStr (k : Int) : GoString :=
  if k = LogTypePrint then White
  else if k = LogTypeInfo then Cyan
  else if k = LogTypeWarn then Yellow
  else if k = LogTypeDebug then Purple
  else if k = LogTypeError then Red
  else []

/-! ## The logger -/

structure logger where
  meta : Int
  logType : Int
  skip : Int
  deriving DecidableEq

/-- The process-wide instance as it is at start-up. -/
def myLogger : logger := ⟨MetaDefault, LogTypeDefault, 0⟩

def New (meta logType : Int) : logger := ⟨meta, logType, 0⟩

def logger.Meta (l : logger) (meta : Int) : logger := { l with meta := meta }

def logger.LogType (l : logger) (lType : Int) : logger := { l with logType := lType }

def logger.Skip (l : logger) (skip : Int) : logger := { l with skip := skip }

/-- Value of a Go `int` expression on a 64-bit platform. -/
def toInt (x : Int) : Int := (x + 2 ^ 63) % 2 ^ 64 - 2 ^ 63

/-- Surroundings of the package.  The type `α` stands for Go interface values: the
operands handed to the `fmt` functions and the error returned by a write.  The argument
of a logging method is evaluated before the body of `log` runs, so the rendering of the
operands comes first and `log` works on the state the rendering leaves. -/
structure Env (α : Type) where
  /-- Result of `time.Now().Format(layout)` for the time captured by the call. -/
  Format : GoString → GoString
  /-- An empty layout renders to the empty string. -/
  Format_empty : Format [] = []
  /-- Result of `runtime.Caller(depth)`: file path and line when `ok`, else `none`. -/
  Caller : Int → Option (GoString × Int)
  /-- Result of `os.Getenv("PWD")`. -/
  PWD : GoString
  /-- Values `(n, err)` returned by `fmt.Print(line)`; `none` is the nil error. -/
  Print : GoString → Int × Option α
  /-- Result of `fmt.Sprint(a...)` when the receiver of the logging method is in the
  given state, and the state in which the rendering leaves that receiver: rendering runs
  the `String` and `Error` methods of the operands, and these may use the logger. -/
  Sprint : List α → logger → GoString × logger
  /-- Result of `fmt.Sprintln(a...)`, and the state in which it leaves the receiver. -/
  Sprintln : List α → logger → GoString × logger
  /-- Result of `fmt.Sprintf(format, a...)` on operands supplied by the user, and the
  state in which it leaves the receiver. -/
  Sprintf : GoString → List α → logger → GoString × logger

/-- What a logging call does: it panics, or it hands `line` to one write and returns the
values `(n, err)` of that write. -/
inductive Outcome (α : Type) where
  | panic
  | wrote (line : GoString) (n : Int) (err : Option α)
  deriving DecidableEq

def logger.timeFormatStr (l : logger) : GoString :=
  let format : GoString := []
  let format := if Int.land l.meta MetaDate > 0 then timeFormat MetaDate ++ ascii " " else format
  let format :=
    if Int.land l.meta MetaTime > 0 then format ++ (timeFormat MetaTime ++ ascii " ") else format
  let format :=
    if Int.land l.meta MetaZone > 0 then format ++ (timeFormat MetaZone ++ ascii " ") else format
  format

/-- Argument of `runtime.Caller` in `caller`. -/
def logger.callerDepth (l : logger) : Int := toInt (3 + l.skip)

/-- Method `caller`; `none` is the panic of the slice expression `[1:]`. -/
def logger.caller {α : Type} (env : Env α) (l : logger) : Option GoString :=
  match env.Caller l.callerDepth with
  | some (path, line) =>
    if Int.land l.meta MetaCallerShort > 0 then
      match sliceFrom (TrimPrefix path env.PWD) 1 with
      | some rel => some (Sprintf (ascii "%s:%d ") [.str rel, .int line])
      | none => none
    else if Int.land l.meta MetaCallerFull > 0 then
      some (Sprintf (ascii "%s:%d ") [.str path, .int line])
    else some []
  | none => some []

/-- Method `log`.  The deferred `l.Skip(0)` runs when the method is left: when `caller`
panics, and when the write has returned.  The last statement, `return fmt.Print(...)`,
is one write of the line, whose values `(n, err)` are returned. -/
def logger.log {α : Type} (env : Env α) (l : logger) (lType : Int) (str : GoString) :
    logger × Outcome α :=
  let pfx := Sprintf Green [.str (env.Format l.timeFormatStr)]
  match l.caller env with
  | none => (l.Skip 0, .panic)
  | some c =>
    let pfx := pfx ++ Sprintf Blue [.str c]
    let pfx :=
      if Int.land l.logType lType > 0 then
        pfx ++ Sprintf (coloredStr lType) [.str (Glog.logType lType)]
      else pfx
    (l.Skip 0, .wrote (pfx ++ str) (env.Print (pfx ++ str)).1 (env.Print (pfx ++ str)).2)

/-! ## Public methods and the package-level functions

Every package-level function receives the current state `g` of the process-wide
instance `myLogger` and returns its new state.  A method first renders its operands,
which may change the state of its receiver, and then calls `log` on that state. -/

def logger.Log {α : Type} (env : Env α) (l : logger) (lType : Int) (str : GoString) :
    logger × Outcome α :=
  l.log env lType str

def Log {α : Type} (env : Env α) (g : logger) (lType : Int) (str : GoString) :
    logger × Outcome α :=
  (g.Skip 1).Log env lType str

def logger.Print {α : Type} (env : Env α) (l : logger) (a : List α) : logger × Outcome α :=
  (env.Sprint a l).2.log env LogTypePrint (env.Sprint a l).1

def Print {α : Type} (env : Env α) (g : logger) (a : List α) : logger × Outcome α :=
  (g.Skip 1).Print env a

def logger.Println {α : Type} (env : Env α) (l : logger) (a : List α) : logger × Outcome α :=
  (env.Sprintln a l).2.log env LogTypePrint (env.Sprintln a l).1

def Println {α : Type} (env : Env α) (g : logger) (a : List α) : logger × Outcome α :=
  (g.Skip 1).Println env a

def logger.Printf {α : Type} (env : Env α) (l : logger) (format : GoString) (a : List α) :
    logger × Outcome α :=
  (env.Sprintf format a l).2.log env LogTypePrint (env.Sprintf format a l).1

def Printf {α : Type} (env : Env α) (g : logger) (format : GoString) (a : List α) :
    logger × Outcome α :=
  (g.Skip 1).Printf env format a

def logger.Info {α : Type} (env : Env α) (l : logger) (a : List α) : logger × Outcome α :=
  (env.Sprint a l).2.log env LogTypeInfo (env.Sprint a l).1

def Info {α : Type} (env : Env α) (g : logger) (a : List α) : logger × Outcome α :=
  (g.Skip 1).Info env a

def logger.Infoln {α : Type} (env : Env α) (l : logger) (a : List α) : logger × Outcome α :=
  (env.Sprintln a l).2.log env LogTypeInfo (env.Sprintln a l).1

def Infoln {α : Type} (env : Env α) (g : logger) (a : List α) : logger × Outcome α :=
  (g.Skip 1).Infoln env a

def logger.Infof {α : Type} (env : Env α) (l : logger) (format : GoString) (a : List α) :
    logger × Outcome α :=
  (env.Sprintf format a l).2.log env LogTypeInfo (env.Sprintf format a l).1

def Infof {α : Type} (env : Env α) (g : logger) (format : GoString) (a : List α) :
    logger × Outcome α :=
  (g.Skip 1).Infof env format a

def logger.Warn {α : Type} (env : Env α) (l : logger) (a : List α) : logger × Outcome α :=
  (env.Sprint a l).2.log env LogTypeWarn (env.Sprint a l).1

def Warn {α : Type} (env : Env α) (g : logger) (a : List α) : logger × Outcome α :=
  (g.Skip 1).Warn env a

def logger.Warnln {α : Type} (env : Env α) (l : logger) (a : List α) : logger × Outcome α :=
  (env.Sprintln a l).2.log env LogTypeWarn (env.Sprintln a l).1

def Warnln {α : Type} (env : Env α) (g : logger) (a : List α) : logger × Outcome α :=
  (g.Skip 1).Warnln env a

def logger.Warnf {α : Type} (env : Env α) (l : logger) (format : GoString) (a : List α) :
    logger × Outcome α :=
  (env.Sprintf format a l).2.log env LogTypeWarn (env.Sprintf format a l).1

def Warnf {α : Type} (env : Env α) (g : logger) (format : GoString) (a : List α) :
    logger × Outcome α :=
  (g.Skip 1).Warnf env format a

def logger.Debug {α : Type} (env : Env α) (l : logger) (a : List α) : logger × Outcome α :=
  (env.Sprint a l).2.log env LogTypeDebug (env.Sprint a l).1

def Debug {α : Type} (env : Env α) (g : logger) (a : List α) : logger × Outcome α :=
  (g.Skip 1).Debug env a

def logger.Debugln {α : Type} (env : Env α) (l : logger) (a : List α) : logger × Outcome α :=
  (env.Sprintln a l).2.log env LogTypeDebug (env.Sprintln a l).1

def Debugln {α : Type} (env : Env α) (g : logger) (a : List α) : logger × Outcome α :=
  (g.Skip 1).Debugln env a

def logger.Debugf {α : Type} (env : Env α) (l : logger) (format : GoString) (a : List α) :
    logger × Outcome α :=
  (env.Sprintf format a l).2.log env LogTypeDebug (env.Sprintf format a l).1

def Debugf {α : Type} (env : Env α) (g : logger) (format : GoString) (a : List α) :
    logger × Outcome α :=
  (g.Skip 1).Debugf env format a

def logger.Error {α : Type} (env : Env α) (l : logger) (err1 : α) : logger × Outcome α :=
  (env.Sprint [err1] l).2.log env LogTypeError (env.Sprint [err1] l).1

def Error {α : Type} (env : Env α) (g : logger) (err1 : α) : logger × Outcome α :=
  (g.Skip 1).Error env err1

def logger.Errorln {α : Type} (env : Env α) (l : logger) (err1 : α) : logger × Outcome α :=
  (env.Sprintln [err1] l).2.log env LogTypeError (env.Sprintln [err1] l).1

def Errorln {α : Type} (env : Env α) (g : logger) (err1 : α) : logger × Outcome α :=
  (g.Skip 1).Errorln env err1

def logger.Errorf {α : Type} (env : Env α) (l : logger) (format : GoString) (a : List α) :
    logger × Outcome α :=
  (env.Sprintf format a l).2.log env LogTypeError (env.Sprintf format a l).1

def Errorf {α : Type} (env : Env α) (g : logger) (format : GoString) (a : List α) :
    logger × Outcome α :=
  (g.Skip 1).Errorf env format a

/-! ## Vocabulary of the specification -/

/-- The five severities of the specification. -/
inductive Severity where
  | plain
  | info
  | warn
  | debug
  | error
  deriving DecidableEq

/-- Position of the bit of a severity in the severity filter. -/
def Severity.bit : Severity → Nat
  | .plain => 0
  | .info => 1
  | .warn => 2
  | .debug => 3
  | .error => 4

/-- Constant of the package that names a severity. -/
def Severity.const : Severity → Int
  | .plain => LogTypePrint
  | .info => LogTypeInfo
  | .warn => LogTypeWarn
  | .debug => LogTypeDebug
  | .error => LogTypeError

/-- Label of a severity in the table of the specification. -/
def Severity.label : Severity → GoString
  | .plain => ascii ""
  | .info => ascii "[INFO] "
  | .warn => ascii "[WARN] "
  | .debug => ascii "[DEBUG] "
  | .error => ascii "[ERROR] "

/-- Colour template of a severity in the table of the specification. -/
def Severity.colour : Severity → GoString
  | .plain => White
  | .info => Cyan
  | .warn => Yellow
  | .debug => Purple
  | .error => Red

/-- A colour template with `s` put in place of its first `%s` (bytes 37, 115). -/
def substitute : GoString → GoString → GoString
  | [], _ => []
  | [c], _ => [c]
  | c :: d :: rest, s =>
    if c = 37 ∧ d = 115 then s ++ rest else c :: substitute (d :: rest) s

/-- The severity segment a line carries: the label in its colour when the bit of the
severity is set in the filter, nothing otherwise. -/
def severitySegment (filter : Int) (sev : Severity) : GoString :=
  if filter.testBit sev.bit then substitute sev.colour sev.label else []

/-- Patterns of the timestamp fields whose bit is set, in the order date, time, zone. -/
def enabledPatterns (meta : Int) : List GoString :=
  (if meta.testBit 0 then [ascii "2006-01-02"] else []) ++
  (if meta.testBit 1 then [ascii "T15:04:05"] else []) ++
  (if meta.testBit 2 then [ascii "Z07:00"] else [])

/-- Layout as the specification words it: the enabled patterns with one space between
neighbours. -/
def specTimeLayout (meta : Int) : GoString :=
  (ascii " ").intercalate (enabledPatterns meta)

/-- A path without a leading slash (byte 47), if it has one. -/
def dropSeparator : GoString → GoString
  | [] => []
  | c :: rest => if c = 47 then rest else c :: rest

/-- Short caller segment as the specification words it: the path without the
working-directory value in front and without the separator that follows it, then a colon
and the line number. -/
def specShortCaller (path pwd : GoString) (line : Int) : GoString :=
  dropSeparator (TrimPrefix path pwd) ++ ascii ":" ++ itoa line

/-- Full caller segment as the specification words it: the path, a colon and the line
number. -/
def specFullCaller (path : GoString) (line : Int) : GoString :=
  path ++ ascii ":" ++ itoa line

/-- Line of the specification: the timestamp in green, the caller segment in blue, a
severity segment, then the text. -/
def specLine (ts c seg text : GoString) : GoString :=
  substitute Green ts ++ substitute Blue c ++ seg ++ text

/-- Layout of the timestamp for a metadata bitset: every enabled pattern followed by a
space. -/
def layoutOf (meta : Int) : GoString :=
  (enabledPatterns meta).flatMap (fun p => p ++ ascii " ")

/-- Caller segment for the frame found on the call stack (`none` when no frame is found):
with the short-caller bit the path after the working-directory value and one more byte,
else with the full-caller bit the path, each followed by a colon, the line number and a
space; the empty string without a frame or a caller bit.  The result `none` is the panic
of the short form on a path that leaves nothing after the working-directory value. -/
def frameSegment (meta : Int) (pwd : GoString) (frame : Option (GoString × Int)) :
    Option GoString :=
  match frame with
  | none => some []
  | some (path, line) =>
    if meta.testBit 4 then
      (sliceFrom (TrimPrefix path pwd) 1).map
        (fun rel => rel ++ ascii ":" ++ itoa line ++ ascii " ")
    else if meta.testBit 3 then some (path ++ ascii ":" ++ itoa line ++ ascii " ")
    else some []

/-- What a logging call of severity `sev` does when its call site is `frame`: it panics
when the caller segment does, and otherwise writes the line of the specification once
and returns what the write returns. -/
def specOutcome {α : Type} (env : Env α) (meta filter : Int)
    (frame : Option (GoString × Int)) (sev : Severity) (text : GoString) : Outcome α :=
  match frameSegment meta env.PWD frame with
  | none => Outcome.panic
  | some c =>
    Outcome.wrote (specLine (env.Format (layoutOf meta)) c (severitySegment filter sev) text)
      (env.Print (specLine (env.Format (layoutOf meta)) c (severitySegment filter sev) text)).1
      (env.Print (specLine (env.Format (layoutOf meta)) c (severitySegment filter sev) text)).2

/-- The seven templates the package formats with. -/
def templates : List GoString := [White, Cyan, Yellow, Purple, Red, Green, Blue]

/-- Rendering of a layout of this package at the instant 2006-01-02 15:04:05 UTC: the
date and time patterns render as themselves and the zone pattern `Z07:00` renders as `Z`
(byte 90).  The first argument counts the bytes of a zone pattern still to be skipped. -/
def sampleClock : Nat → GoString → GoString
  | _, [] => []
  | k + 1, _ :: rest => sampleClock k rest
  | 0, c :: rest =>
    if (ascii "Z07:00").isPrefixOf (c :: rest) then 90 :: sampleClock 5 rest
    else c :: sampleClock 0 rest

/-- An environment for concrete runs, with strings as operands: the clock is
`sampleClock`, the call stack is `stack`, `PWD` is `pwd`, a write of `n` bytes returns
`n` and no error, and rendering the operands leaves the logger alone. -/
def sampleEnv (stack : Int → Option (GoString × Int)) (pwd : GoString) : Env GoString where
  Format := sampleClock 0
  Format_empty := rfl
  Caller := stack
  PWD := pwd
  Print := fun line => (line.length, none)
  Sprint := fun a l => (a.flatten, l)
  Sprintln := fun a l => ((ascii " ").intercalate a ++ ascii "\n", l)
  Sprintf := fun format a l => (Glog.Sprintf format (a.map Arg.str), l)

/-- A call stack on which the frame of the user, at depth 3, is line 7 of `/w/a.go`. -/
def sampleStack (depth : Int) : Option (GoString × Int) :=
  if depth = 3 then some (ascii "/w/a.go", 7) else none

/-- A call stack of a package-level call: at depth 3 the frame of the package-level
function itself, line 158 of `/w/glog/log.go`, and at depth 4 the frame of the user, line
12 of `/w/main.go`. -/
def wrapperStack (depth : Int) : Option (GoString × Int) :=
  if depth = 3 then some (ascii "/w/glog/log.go", 158)
  else if depth = 4 then some (ascii "/w/main.go", 12)
  else none

/-- An environment like `sampleEnv` in which the `String` method of an operand of
`Sprint` itself logs the text `nested` through the package-level `Info`: the rendering
leaves the logger in the state that nested call leaves it in. -/
def reentrantEnv (stack : Int → Option (GoString × Int)) (pwd : GoString) : Env GoString where
  Format := sampleClock 0
  Format_empty := rfl
  Caller := stack
  PWD := pwd
  Print := fun line => (line.length, none)
  Sprint := fun a l => (a.flatten, (Info (sampleEnv stack pwd) l [ascii "nested"]).1)
  Sprintln := fun a l => ((ascii " ").intercalate a ++ ascii "\n", l)
  Sprintf := fun format a l => (Glog.Sprintf format (a.map Arg.str), l)

/-! ## Bit tests -/

theorem land_two_pow_pos (f : Int) (k : Nat) :
    0 < Int.land f ((2 ^ k : Nat) : Int) ↔ f.testBit k = true := by
  cases f with
  | ofNat m =>
    show 0 < ((m &&& 2 ^ k : Nat) : Int) ↔ m.testBit k = true
    rw [Nat.and_two_pow]
    cases h : m.testBit k <;> simp
  | negSucc m =>
    show 0 < ((Nat.ldiff (2 ^ k) m : Nat) : Int) ↔ (!m.testBit k) = true
    have hd : Nat.ldiff (2 ^ k) m = if m.testBit k then 0 else 2 ^ k := by
      apply Nat.eq_of_testBit_eq
      intro i
      rw [Nat.testBit_ldiff, Nat.testBit_two_pow]
      by_cases hki : k = i
      · subst hki
        cases h : m.testBit k <;> simp [Nat.testBit_two_pow]
      · cases h : m.testBit k <;> simp [Nat.testBit_two_pow, hki]
    rw [hd]
    cases h : m.testBit k <;> simp

theorem land_const_pos (f c : Int) (k : Nat) (hc : c = ((2 ^ k : Nat) : Int)) :
    Int.land f c > 0 ↔ f.testBit k = true := by
  subst hc
  exact land_two_pow_pos f k

theorem date_test (m : Int) : Int.land m MetaDate > 0 ↔ m.testBit 0 = true :=
  land_const_pos m MetaDate 0 (by decide)

theorem time_test (m : Int) : Int.land m MetaTime > 0 ↔ m.testBit 1 = true :=
  land_const_pos m MetaTime 1 (by decide)

theorem zone_test (m : Int) : Int.land m MetaZone > 0 ↔ m.testBit 2 = true :=
  land_const_pos m MetaZone 2 (by decide)

theorem full_test (m : Int) : Int.land m MetaCallerFull > 0 ↔ m.testBit 3 = true :=
  land_const_pos m MetaCallerFull 3 (by decide)

theorem short_test (m : Int) : Int.land m MetaCallerShort > 0 ↔ m.testBit 4 = true :=
  land_const_pos m MetaCallerShort 4 (by decide)

theorem severity_test (f : Int) (sev : Severity) :
    Int.land f sev.const > 0 ↔ f.testBit sev.bit = true := by
  cases sev <;> exact land_const_pos f _ _ (by decide)

theorem zero_land_not_pos (x : Int) : ¬ Int.land 0 x > 0 := by
  cases x with
  | ofNat n => simp [Int.land]
  | negSucc n =>
    have hd : Nat.ldiff 0 n = 0 := by
      apply Nat.eq_of_testBit_eq
      intro i
      simp [Nat.testBit_ldiff]
    show ¬ ((Nat.ldiff 0 n : Nat) : Int) > 0
    simp [hd]

/-! ## Formatting with the templates -/

theorem Sprintf_literal (pre : GoString) (h : (37 : Byte) ∉ pre) (rest : GoString)
    (args : List Arg) : Sprintf (pre ++ rest) args = pre ++ Sprintf rest args := by
  induction pre with
  | nil => rfl
  | cons c pre ih =>
    have hc : c ≠ 37 := fun e => h (by simp [e])
    have hp : (37 : Byte) ∉ pre := fun e => h (by simp [e])
    rw [List.cons_append]
    conv_lhs => rw [Sprintf.eq_def]
    simp [hc, ih hp]

theorem Sprintf_s (rest : GoString) (x : GoString) (args : List Arg) :
    Sprintf (37 :: 115 :: rest) (.str x :: args) = x ++ Sprintf rest args := by
  simp [Sprintf, formatVerb]

theorem Sprintf_d (rest : GoString) (n : Int) (args : List Arg) :
    Sprintf (37 :: 100 :: rest) (.int n :: args) = itoa n ++ Sprintf rest args := by
  simp [Sprintf, formatVerb]

theorem Sprintf_tail (post : GoString) (h : (37 : Byte) ∉ post) : Sprintf post [] = post := by
  have := Sprintf_literal post h [] []
  simpa [Sprintf, extra] using this

theorem Sprintf_template (pre post x : GoString) (hpre : (37 : Byte) ∉ pre)
    (hpost : (37 : Byte) ∉ post) :
    Sprintf (pre ++ 37 :: 115 :: post) [.str x] = pre ++ x ++ post := by
  rw [Sprintf_literal _ hpre, Sprintf_s, Sprintf_tail _ hpost, List.append_assoc]

theorem substitute_template (pre post x : GoString) (hpre : (37 : Byte) ∉ pre) :
    substitute (pre ++ 37 :: 115 :: post) x = pre ++ x ++ post := by
  induction pre with
  | nil => simp [substitute]
  | cons c pre ih =>
    have hc : c ≠ 37 := fun e => hpre (by simp [e])
    have hp : (37 : Byte) ∉ pre := fun e => hpre (by simp [e])
    cases pre with
    | nil => simp [substitute, hc]
    | cons d pre => simpa [substitute, hc] using ih hp

theorem template_split (t : GoString) (ht : t ∈ templates) :
    ∃ pre post, t = pre ++ 37 :: 115 :: post ∧ (37 : Byte) ∉ pre ∧ (37 : Byte) ∉ post := by
  simp only [templates, List.mem_cons, List.mem_singleton, List.not_mem_nil, or_false] at ht
  rcases ht with h | h | h | h | h | h | h <;> subst h
  · exact ⟨ascii "\x1b[3;30m", ascii "\x1b[0m", by decide, by decide, by decide⟩
  · exact ⟨ascii "\x1b[1;36m", ascii "\x1b[0m", by decide, by decide, by decide⟩
  · exact ⟨ascii "\x1b[1;33m", ascii "\x1b[0m", by decide, by decide, by decide⟩
  · exact ⟨ascii "\x1b[1;35m", ascii "\x1b[0m", by decide, by decide, by decide⟩
  · exact ⟨ascii "\x1b[1;31m", ascii "\x1b[0m", by decide, by decide, by decide⟩
  · exact ⟨ascii "\x1b[1;32m", ascii "\x1b[0m", by decide, by decide, by decide⟩
  · exact ⟨ascii "\x1b[1;34m", ascii "\x1b[0m", by decide, by decide, by decide⟩

theorem Sprintf_eq_substitute (t : GoString) (ht : t ∈ templates) (x : GoString) :
    Sprintf t [.str x] = substitute t x := by
  obtain ⟨pre, post, rfl, hpre, hpost⟩ := template_split t ht
  rw [Sprintf_template _ _ _ hpre hpost, substitute_template _ _ _ hpre]

theorem substitute_Green (x : GoString) :
    substitute Green x = ascii "\x1b[1;32m" ++ x ++ ascii "\x1b[0m" := by
  have h : Green = ascii "\x1b[1;32m" ++ 37 :: 115 :: ascii "\x1b[0m" := by decide
  rw [h, substitute_template _ _ _ (by decide)]

theorem substitute_Blue (x : GoString) :
    substitute Blue x = ascii "\x1b[1;34m" ++ x ++ ascii "\x1b[0m" := by
  have h : Blue = ascii "\x1b[1;34m" ++ 37 :: 115 :: ascii "\x1b[0m" := by decide
  rw [h, substitute_template _ _ _ (by decide)]

theorem colour_mem (sev : Severity) : sev.colour ∈ templates := by
  cases sev <;> simp [templates, Severity.colour]

theorem coloredStr_const (sev : Severity) : coloredStr sev.const = sev.colour := by
  cases sev <;> rfl

theorem logType_const (sev : Severity) : logType sev.const = sev.label := by
  cases sev <;> rfl

theorem Sprintf_location (p : GoString) (n : Int) :
    Sprintf (ascii "%s:%d ") [.str p, .int n] = p ++ ascii ":" ++ itoa n ++ ascii " " := by
  have h : ascii "%s:%d " = 37 :: 115 :: ([58] ++ 37 :: 100 :: [32]) := by decide
  have h1 : ascii ":" = [58] := by decide
  have h2 : ascii " " = [32] := by decide
  rw [h, Sprintf_s, Sprintf_literal _ (by decide), Sprintf_d, Sprintf_tail _ (by decide), h1, h2]
  simp

/-! ## The methods in closed form -/

theorem timeFormatStr_patterns (l : logger) :
    l.timeFormatStr = (enabledPatterns l.meta).flatMap (fun p => p ++ ascii " ") := by
  unfold logger.timeFormatStr enabledPatterns
  simp only [date_test, time_test, zone_test]
  cases l.meta.testBit 0 <;> cases l.meta.testBit 1 <;> cases l.meta.testBit 2 <;> rfl

theorem testBit_land_seven (m : Int) (k : Nat) (hk : k < 3) :
    (Int.land m 7).testBit k = m.testBit k := by
  rw [Int.testBit_land]
  have h7 : (7 : Int).testBit k = true := by
    interval_cases k <;> decide
  rw [h7, Bool.and_true]

theorem TrimPrefix_append (p rest : GoString) : TrimPrefix (p ++ rest) p = rest := by
  unfold TrimPrefix
  have h : p.isPrefixOf (p ++ rest) = true := by
    rw [List.isPrefixOf_iff_prefix]
    exact List.prefix_append p rest
  rw [if_pos h, List.drop_left]

theorem TrimPrefix_eq_nil_iff (path pwd : GoString) :
    TrimPrefix path pwd = [] ↔ path = [] ∨ path = pwd := by
  unfold TrimPrefix
  by_cases h : pwd.isPrefixOf path = true
  · rw [if_pos h]
    rw [List.isPrefixOf_iff_prefix] at h
    obtain ⟨t, rfl⟩ := h
    rw [List.drop_left]
    constructor
    · intro ht
      right
      simp [ht]
    · rintro (h0 | h1)
      · simp at h0
        exact h0.2
      · simpa using h1
  · rw [if_neg h]
    constructor
    · intro h0
      exact Or.inl h0
    · rintro (h0 | h1)
      · exact h0
      · exfalso
        apply h
        rw [List.isPrefixOf_iff_prefix, h1]

theorem sliceFrom_one_eq_none_iff (s : GoString) : sliceFrom s 1 = none ↔ s = [] := by
  cases s with
  | nil => simp [sliceFrom]
  | cons c rest => simp [sliceFrom]

theorem sliceFrom_one_cons (c : Byte) (rest : GoString) :
    sliceFrom (c :: rest) 1 = some rest := by
  simp [sliceFrom]

theorem caller_unresolved {α : Type} (env : Env α) (l : logger)
    (h : env.Caller l.callerDepth = none) : l.caller env = some [] := by
  unfold logger.caller
  rw [h]

theorem caller_neither {α : Type} (env : Env α) (l : logger)
    (h4 : l.meta.testBit 4 = false) (h3 : l.meta.testBit 3 = false) :
    l.caller env = some [] := by
  unfold logger.caller
  have hs : ¬ Int.land l.meta MetaCallerShort > 0 := by rw [short_test]; simp [h4]
  have hf : ¬ Int.land l.meta MetaCallerFull > 0 := by rw [full_test]; simp [h3]
  cases env.Caller l.callerDepth with
  | none => rfl
  | some pl => simp only [if_neg hs, if_neg hf]

theorem caller_short_eq {α : Type} (env : Env α) (l : logger) (path : GoString) (line : Int)
    (h4 : l.meta.testBit 4 = true) (hcall : env.Caller l.callerDepth = some (path, line)) :
    l.caller env =
      (sliceFrom (TrimPrefix path env.PWD) 1).map
        (fun rel => rel ++ ascii ":" ++ itoa line ++ ascii " ") := by
  unfold logger.caller
  have hs : Int.land l.meta MetaCallerShort > 0 := (short_test _).2 h4
  rw [hcall]
  simp only [if_pos hs]
  cases sliceFrom (TrimPrefix path env.PWD) 1 with
  | none => rfl
  | some rel => simp [Sprintf_location]

theorem caller_full_eq {α : Type} (env : Env α) (l : logger) (path : GoString) (line : Int)
    (h4 : l.meta.testBit 4 = false) (h3 : l.meta.testBit 3 = true)
    (hcall : env.Caller l.callerDepth = some (path, line)) :
    l.caller env = some (path ++ ascii ":" ++ itoa line ++ ascii " ") := by
  unfold logger.caller
  have hs : ¬ Int.land l.meta MetaCallerShort > 0 := by rw [short_test]; simp [h4]
  have hf : Int.land l.meta MetaCallerFull > 0 := (full_test _).2 h3
  rw [hcall]
  simp only [if_neg hs, if_pos hf, Sprintf_location]

theorem log_state {α : Type} (env : Env α) (l : logger) (lType : Int) (str : GoString) :
    (l.log env lType str).1 = ⟨l.meta, l.logType, 0⟩ := by
  unfold logger.log
  cases l.caller env <;> rfl

theorem log_panic {α : Type} (env : Env α) (l : logger) (lType : Int) (str : GoString)
    (hc : l.caller env = none) : (l.log env lType str).2 = Outcome.panic := by
  unfold logger.log
  simp only [hc]

theorem log_wrote {α : Type} (env : Env α) (l : logger) (lType : Int) (str c : GoString)
    (hc : l.caller env = some c) :
    (l.log env lType str).2 =
      Outcome.wrote
        (specLine (env.Format l.timeFormatStr) c
          (if Int.land l.logType lType > 0 then
            Sprintf (coloredStr lType) [.str (logType lType)] else []) str)
        (env.Print (specLine (env.Format l.timeFormatStr) c
          (if Int.land l.logType lType > 0 then
            Sprintf (coloredStr lType) [.str (logType lType)] else []) str)).1
        (env.Print (specLine (env.Format l.timeFormatStr) c
          (if Int.land l.logType lType > 0 then
            Sprintf (coloredStr lType) [.str (logType lType)] else []) str)).2 := by
  have hline : Sprintf Green [.str (env.Format l.timeFormatStr)] ++ Sprintf Blue [.str c] ++
      (if Int.land l.logType lType > 0 then
        Sprintf (coloredStr lType) [.str (logType lType)] else []) ++ str
      = (if Int.land l.logType lType > 0 then
          Sprintf Green [.str (env.Format l.timeFormatStr)] ++ Sprintf Blue [.str c] ++
            Sprintf (coloredStr lType) [.str (logType lType)]
        else Sprintf Green [.str (env.Format l.timeFormatStr)] ++ Sprintf Blue [.str c])
        ++ str := by
    split <;> simp
  unfold logger.log specLine
  simp only [hc]
  rw [← Sprintf_eq_substitute Green (by simp [templates]),
    ← Sprintf_eq_substitute Blue (by simp [templates]), hline]

theorem log_severity {α : Type} (env : Env α) (l : logger) (sev : Severity)
    (str c : GoString) (hc : l.caller env = some c) :
    (l.log env sev.const str).2 =
      Outcome.wrote
        (specLine (env.Format l.timeFormatStr) c (severitySegment l.logType sev) str)
        (env.Print
          (specLine (env.Format l.timeFormatStr) c (severitySegment l.logType sev) str)).1
        (env.Print
          (specLine (env.Format l.timeFormatStr) c (severitySegment l.logType sev) str)).2 := by
  rw [log_wrote env l sev.const str c hc]
  unfold severitySegment
  simp only [severity_test, coloredStr_const, logType_const,
    Sprintf_eq_substitute _ (colour_mem sev)]

theorem toInt_of_range (x : Int) (hlo : -2 ^ 63 ≤ x) (hhi : x < 2 ^ 63) : toInt x = x := by
  unfold toInt
  omega

theorem wrapped_label_ne_nil (sev : Severity) : substitute sev.colour sev.label ≠ [] := by
  cases sev <;> decide

theorem caller_eq_frameSegment {α : Type} (env : Env α) (l : logger) :
    l.caller env = frameSegment l.meta env.PWD (env.Caller l.callerDepth) := by
  unfold frameSegment
  cases hf : env.Caller l.callerDepth with
  | none => exact caller_unresolved env l hf
  | some pl =>
    obtain ⟨path, line⟩ := pl
    cases h4 : l.meta.testBit 4 with
    | true => simpa using caller_short_eq env l path line h4 hf
    | false =>
      cases h3 : l.meta.testBit 3 with
      | true => simpa using caller_full_eq env l path line h4 h3 hf
      | false => simpa using caller_neither env l h4 h3

theorem log_eq_specOutcome {α : Type} (env : Env α) (l : logger) (sev : Severity)
    (str : GoString) :
    l.log env sev.const str =
      (⟨l.meta, l.logType, 0⟩,
        specOutcome env l.meta l.logType (env.Caller l.callerDepth) sev str) := by
  apply Prod.ext
  · exact log_state env l sev.const str
  · show (l.log env sev.const str).2 = specOutcome env l.meta l.logType _ sev str
    unfold specOutcome layoutOf
    rw [← caller_eq_frameSegment, ← timeFormatStr_patterns]
    cases hc : l.caller env with
    | none => exact log_panic env l sev.const str hc
    | some c => exact log_severity env l sev str c hc

theorem callerDepth_skip_one (g : logger) : (g.Skip 1).callerDepth = 3 + 1 := by
  show toInt (3 + 1) = 3 + 1
  decide

/-! ## The claims -/

/-- C1, as stated, fails: with an empty severity filter, `Warn` of a text that itself
carries the yellow `[WARN] ` label writes a line that contains the colour-wrapped label
although the bit of the severity is clear. -/
theorem label_in_line_without_bit :
    ((New MetaDefault 0).log (sampleEnv sampleStack (ascii "/w")) Severity.warn.const
        (ascii "\x1b[1;33m[WARN] \x1b[0m")).2
      = Outcome.wrote
          (ascii ("\x1b[1;32m2006-01-02 T15:04:05 Z \x1b[0m\x1b[1;34ma.go:7 \x1b[0m" ++
            "\x1b[1;33m[WARN] \x1b[0m")) 70 none
    ∧ ¬ (substitute Severity.warn.colour Severity.warn.label <:+:
          ascii ("\x1b[1;32m2006-01-02 T15:04:05 Z \x1b[0m\x1b[1;34ma.go:7 \x1b[0m" ++
            "\x1b[1;33m[WARN] \x1b[0m")
        ↔ (New MetaDefault 0).logType.testBit Severity.warn.bit = true) := by
  refine ⟨by decide, ?_⟩
  intro h
  have hbit : ¬ ((New MetaDefault 0).logType.testBit Severity.warn.bit = true) := by decide
  exact hbit (h.1 (by decide))

/-- C1, amended: when the caller segment is `c`, `log` hands to its one write the green
timestamp, the blue caller segment, a severity segment and the text, and returns what
the write returns; the severity segment is the colour-wrapped label if and only if the
bit of the severity is set in the filter, and it is empty if and only if the bit is
clear; a set bit puts the colour-wrapped label into the line, and the line ends with the
unmodified text in both cases. -/
theorem log_label_segment_iff_bit {α : Type} (env : Env α) (l : logger) (sev : Severity)
    (text c : GoString) (hc : l.caller env = some c) :
    (l.log env sev.const text).2 =
        Outcome.wrote
          (substitute Green (env.Format l.timeFormatStr) ++ substitute Blue c ++
            severitySegment l.logType sev ++ text)
          (env.Print (substitute Green (env.Format l.timeFormatStr) ++ substitute Blue c ++
            severitySegment l.logType sev ++ text)).1
          (env.Print (substitute Green (env.Format l.timeFormatStr) ++ substitute Blue c ++
            severitySegment l.logType sev ++ text)).2
    ∧ (severitySegment l.logType sev = substitute sev.colour sev.label ↔
        l.logType.testBit sev.bit = true)
    ∧ (severitySegment l.logType sev = [] ↔ l.logType.testBit sev.bit = false)
    ∧ (l.logType.testBit sev.bit = true →
        substitute sev.colour sev.label <:+:
          substitute Green (env.Format l.timeFormatStr) ++ substitute Blue c ++
            severitySegment l.logType sev ++ text)
    ∧ text <:+ substitute Green (env.Format l.timeFormatStr) ++ substitute Blue c ++
        severitySegment l.logType sev ++ text := by
  refine ⟨log_severity env l sev text c hc, ?_, ?_, ?_, ?_⟩
  · unfold severitySegment
    cases l.logType.testBit sev.bit
    · simpa using (wrapped_label_ne_nil sev).symm
    · simp
  · unfold severitySegment
    cases l.logType.testBit sev.bit
    · simp
    · simpa using wrapped_label_ne_nil sev
  · intro hbit
    unfold severitySegment
    rw [if_pos hbit]
    exact ⟨substitute Green (env.Format l.timeFormatStr) ++ substitute Blue c, text, by simp⟩
  · exact List.suffix_append _ _

theorem log_label_segment_iff_bit_witness :
    myLogger.caller (sampleEnv sampleStack (ascii "/w")) = some (ascii "a.go:7 ")
    ∧ (myLogger.log (sampleEnv sampleStack (ascii "/w")) Severity.info.const (ascii "hello")).2 =
        Outcome.wrote
          (substitute Green ((sampleEnv sampleStack (ascii "/w")).Format myLogger.timeFormatStr) ++
            substitute Blue (ascii "a.go:7 ") ++
            severitySegment myLogger.logType Severity.info ++ ascii "hello")
          ((sampleEnv sampleStack (ascii "/w")).Print
            (substitute Green
                ((sampleEnv sampleStack (ascii "/w")).Format myLogger.timeFormatStr) ++
              substitute Blue (ascii "a.go:7 ") ++
              severitySegment myLogger.logType Severity.info ++ ascii "hello")).1
          ((sampleEnv sampleStack (ascii "/w")).Print
            (substitute Green
                ((sampleEnv sampleStack (ascii "/w")).Format myLogger.timeFormatStr) ++
              substitute Blue (ascii "a.go:7 ") ++
              severitySegment myLogger.logType Severity.info ++ ascii "hello")).2
    ∧ (myLogger.log (sampleEnv sampleStack (ascii "/w")) Severity.info.const (ascii "hello")).2 =
        Outcome.wrote
          (ascii ("\x1b[1;32m2006-01-02 T15:04:05 Z \x1b[0m\x1b[1;34ma.go:7 \x1b[0m" ++
            "\x1b[1;36m[INFO] \x1b[0mhello")) 75 none :=
  ⟨by decide,
    (log_label_segment_iff_bit (sampleEnv sampleStack (ascii "/w")) myLogger Severity.info
      (ascii "hello") (ascii "a.go:7 ") (by decide)).1,
    by decide⟩

/-- C2, as stated, fails: with only the date bit set the layout is the date pattern
followed by a space, not the date pattern alone. -/
theorem layout_has_trailing_space :
    (New MetaDate 0).timeFormatStr = ascii "2006-01-02 "
    ∧ specTimeLayout MetaDate = ascii "2006-01-02"
    ∧ (New MetaDate 0).timeFormatStr ≠ specTimeLayout (New MetaDate 0).meta := by
  decide

/-- C2, amended: the layout is the patterns of the bits that are set among date, time and
zone, in that order, each pattern followed by a single space; it is empty exactly when
none of the three bits is set, and it does not change when every other bit of the
metadata is cleared. -/
theorem timeFormatStr_layout (l : logger) :
    l.timeFormatStr = (enabledPatterns l.meta).flatMap (fun p => p ++ ascii " ")
    ∧ (l.timeFormatStr = [] ↔
        (l.meta.testBit 0 = false ∧ l.meta.testBit 1 = false ∧ l.meta.testBit 2 = false))
    ∧ (l.Meta (Int.land l.meta 7)).timeFormatStr = l.timeFormatStr := by
  refine ⟨timeFormatStr_patterns l, ?_, ?_⟩
  · rw [timeFormatStr_patterns]
    unfold enabledPatterns
    cases l.meta.testBit 0 <;> cases l.meta.testBit 1 <;> cases l.meta.testBit 2 <;> decide
  · rw [timeFormatStr_patterns, timeFormatStr_patterns]
    unfold enabledPatterns logger.Meta
    simp only [testBit_land_seven l.meta 0 (by decide), testBit_land_seven l.meta 1 (by decide),
      testBit_land_seven l.meta 2 (by decide)]

/-- C3, as stated, fails: it does not hold for every logger configuration.  With the
short-caller bit set and a call site whose path equals the working-directory value, a
call with a severity whose bit is set in the filter panics in `caller` and no string is
handed to a write. -/
theorem enabled_severity_without_write :
    (New MetaCallerShort LogTypeDefault).logType.testBit Severity.info.bit = true
    ∧ ((New MetaCallerShort LogTypeDefault).log (sampleEnv sampleStack (ascii "/w/a.go"))
        Severity.info.const (ascii "hello")).2 = Outcome.panic
    ∧ ∀ (line : GoString) (n : Int) (err : Option GoString),
        ((New MetaCallerShort LogTypeDefault).log (sampleEnv sampleStack (ascii "/w/a.go"))
          Severity.info.const (ascii "hello")).2 ≠ Outcome.wrote line n err := by
  have hp : ((New MetaCallerShort LogTypeDefault).log (sampleEnv sampleStack (ascii "/w/a.go"))
      Severity.info.const (ascii "hello")).2 = Outcome.panic := by decide
  refine ⟨by decide, hp, ?_⟩
  intro line n err h
  rw [hp] at h
  cases h

/-- C3, amended: for a severity whose bit is set in the filter, and when `caller` yields
the segment `c` (it does not panic), the string handed to the single write is the
timestamp in the Green template, then `c` in the Blue template, then the label of the
severity in the template of the severity, then the text, with nothing after the text;
the call returns what that write returns. -/
theorem log_line_exact {α : Type} (env : Env α) (l : logger) (sev : Severity)
    (text c : GoString) (hbit : l.logType.testBit sev.bit = true)
    (hc : l.caller env = some c) :
    (l.log env sev.const text).2 =
      Outcome.wrote
        (substitute Green (env.Format l.timeFormatStr) ++ substitute Blue c ++
          substitute sev.colour sev.label ++ text)
        (env.Print (substitute Green (env.Format l.timeFormatStr) ++ substitute Blue c ++
          substitute sev.colour sev.label ++ text)).1
        (env.Print (substitute Green (env.Format l.timeFormatStr) ++ substitute Blue c ++
          substitute sev.colour sev.label ++ text)).2 := by
  rw [log_severity env l sev text c hc]
  unfold severitySegment specLine
  rw [if_pos hbit]

theorem log_line_exact_witness :
    myLogger.logType.testBit Severity.info.bit = true
    ∧ myLogger.caller (sampleEnv sampleStack (ascii "/w")) = some (ascii "a.go:7 ")
    ∧ (myLogger.log (sampleEnv sampleStack (ascii "/w")) Severity.info.const (ascii "hello")).2 =
        Outcome.wrote
          (substitute Green ((sampleEnv sampleStack (ascii "/w")).Format myLogger.timeFormatStr) ++
            substitute Blue (ascii "a.go:7 ") ++
            substitute Severity.info.colour Severity.info.label ++ ascii "hello")
          ((sampleEnv sampleStack (ascii "/w")).Print
            (substitute Green
                ((sampleEnv sampleStack (ascii "/w")).Format myLogger.timeFormatStr) ++
              substitute Blue (ascii "a.go:7 ") ++
              substitute Severity.info.colour Severity.info.label ++ ascii "hello")).1
          ((sampleEnv sampleStack (ascii "/w")).Print
            (substitute Green
                ((sampleEnv sampleStack (ascii "/w")).Format myLogger.timeFormatStr) ++
              substitute Blue (ascii "a.go:7 ") ++
              substitute Severity.info.colour Severity.info.label ++ ascii "hello")).2
    ∧ substitute Green ((sampleEnv sampleStack (ascii "/w")).Format myLogger.timeFormatStr) ++
          substitute Blue (ascii "a.go:7 ") ++
          substitute Severity.info.colour Severity.info.label ++ ascii "hello"
        = ascii ("\x1b[1;32m2006-01-02 T15:04:05 Z \x1b[0m\x1b[1;34ma.go:7 \x1b[0m" ++
            "\x1b[1;36m[INFO] \x1b[0mhello") :=
  ⟨by decide, by decide,
    log_line_exact (sampleEnv sampleStack (ascii "/w")) myLogger Severity.info (ascii "hello")
      (ascii "a.go:7 ") (by decide) (by decide),
    by decide⟩

/-- C4, as stated, fails: for `/w/a.go`, line 7 and working directory `/w` the short
caller segment is `a.go:7` followed by a space, not `a.go:7`; and when the path equals
the working-directory value no segment is rendered at all, the call panics. -/
theorem short_caller_differs :
    (New MetaCallerShort 0).caller (sampleEnv sampleStack (ascii "/w")) = some (ascii "a.go:7 ")
    ∧ specShortCaller (ascii "/w/a.go") (ascii "/w") 7 = ascii "a.go:7"
    ∧ (New MetaCallerShort 0).caller (sampleEnv sampleStack (ascii "/w"))
        ≠ some (specShortCaller (ascii "/w/a.go") (ascii "/w") 7)
    ∧ (New MetaCallerShort 0).caller (sampleEnv sampleStack (ascii "/w/a.go")) = none := by
  decide

/-- C4, amended: when call-site resolution succeeds, the short-caller bit is set (the
full-caller bit set or not) and the path is the working-directory value followed by a
slash and a remainder, the caller segment is the remainder, a colon, the decimal line
number and one trailing space. -/
theorem caller_short_relative {α : Type} (env : Env α) (l : logger) (rest : GoString)
    (line : Int) (h4 : l.meta.testBit 4 = true)
    (hcall : env.Caller l.callerDepth = some (env.PWD ++ 47 :: rest, line)) :
    l.caller env = some (rest ++ ascii ":" ++ itoa line ++ ascii " ") := by
  rw [caller_short_eq env l _ line h4 hcall, TrimPrefix_append, sliceFrom_one_cons]
  rfl

theorem caller_short_relative_witness :
    (New MetaCallerShort 0).meta.testBit 4 = true
    ∧ (sampleEnv sampleStack (ascii "/w")).Caller (New MetaCallerShort 0).callerDepth
        = some ((sampleEnv sampleStack (ascii "/w")).PWD ++ 47 :: ascii "a.go", 7)
    ∧ (New MetaCallerShort 0).caller (sampleEnv sampleStack (ascii "/w"))
        = some (ascii "a.go" ++ ascii ":" ++ itoa 7 ++ ascii " ") :=
  ⟨by decide, by decide,
    caller_short_relative (sampleEnv sampleStack (ascii "/w")) (New MetaCallerShort 0)
      (ascii "a.go") 7 (by decide) (by decide)⟩

/-- C5, as stated, fails: for `/w/a.go` and line 7 the full caller segment is
`/w/a.go:7` followed by a space, not `/w/a.go:7`. -/
theorem full_caller_differs :
    (New MetaCallerFull 0).caller (sampleEnv sampleStack (ascii "/w")) = some (ascii "/w/a.go:7 ")
    ∧ specFullCaller (ascii "/w/a.go") 7 = ascii "/w/a.go:7"
    ∧ (New MetaCallerFull 0).caller (sampleEnv sampleStack (ascii "/w"))
        ≠ some (specFullCaller (ascii "/w/a.go") 7) := by
  decide

/-- C5, amended: when call-site resolution succeeds, the full-caller bit is set and the
short-caller bit is clear, the caller segment is the unmodified path, a colon, the
decimal line number and one trailing space, whatever the working-directory value. -/
theorem caller_full_absolute {α : Type} (env : Env α) (l : logger) (path : GoString)
    (line : Int) (h4 : l.meta.testBit 4 = false) (h3 : l.meta.testBit 3 = true)
    (hcall : env.Caller l.callerDepth = some (path, line)) :
    l.caller env = some (path ++ ascii ":" ++ itoa line ++ ascii " ")
    ∧ ∀ pwd : GoString,
        l.caller { env with PWD := pwd } = some (path ++ ascii ":" ++ itoa line ++ ascii " ") :=
  ⟨caller_full_eq env l path line h4 h3 hcall,
    fun pwd => caller_full_eq { env with PWD := pwd } l path line h4 h3 hcall⟩

theorem caller_full_absolute_witness :
    (New MetaCallerFull 0).meta.testBit 4 = false
    ∧ (New MetaCallerFull 0).meta.testBit 3 = true
    ∧ (sampleEnv sampleStack (ascii "/w")).Caller (New MetaCallerFull 0).callerDepth
        = some (ascii "/w/a.go", 7)
    ∧ (New MetaCallerFull 0).caller (sampleEnv sampleStack (ascii "/w"))
        = some (ascii "/w/a.go" ++ ascii ":" ++ itoa 7 ++ ascii " ") :=
  ⟨by decide, by decide, by decide,
    (caller_full_absolute (sampleEnv sampleStack (ascii "/w")) (New MetaCallerFull 0)
      (ascii "/w/a.go") 7 (by decide) (by decide) (by decide)).1⟩

/-- C6: when neither caller bit is set, and also when call-site resolution fails, the
caller segment is the empty string and the logging call does not panic: for every
severity and text it performs its write, of a line made of the green timestamp, the Blue
template around the empty string, a severity segment and the text. -/
theorem caller_empty_segment {α : Type} (env : Env α) (l : logger)
    (h : (l.meta.testBit 4 = false ∧ l.meta.testBit 3 = false) ∨
      env.Caller l.callerDepth = none) :
    l.caller env = some []
    ∧ ∀ (lType : Int) (str : GoString),
        (l.log env lType str).2 ≠ Outcome.panic
        ∧ ∃ seg, (l.log env lType str).2 =
            Outcome.wrote
              (substitute Green (env.Format l.timeFormatStr) ++ substitute Blue [] ++ seg ++ str)
              (env.Print (substitute Green (env.Format l.timeFormatStr) ++ substitute Blue [] ++
                seg ++ str)).1
              (env.Print (substitute Green (env.Format l.timeFormatStr) ++ substitute Blue [] ++
                seg ++ str)).2 := by
  have hc : l.caller env = some [] := by
    rcases h with ⟨h4, h3⟩ | hn
    · exact caller_neither env l h4 h3
    · exact caller_unresolved env l hn
  refine ⟨hc, fun lType str => ?_⟩
  rw [log_wrote env l lType str [] hc]
  exact ⟨by simp, _, rfl⟩

theorem caller_empty_segment_witness :
    (((New MetaDate 0).meta.testBit 4 = false ∧ (New MetaDate 0).meta.testBit 3 = false) ∨
      (sampleEnv sampleStack (ascii "/w")).Caller (New MetaDate 0).callerDepth = none)
    ∧ (New MetaDate 0).caller (sampleEnv sampleStack (ascii "/w")) = some [] :=
  ⟨by decide,
    (caller_empty_segment (sampleEnv sampleStack (ascii "/w")) (New MetaDate 0)
      (by decide)).1⟩

/-- C7: after `log` the skip field is 0 and the meta and logType fields are unchanged,
for every state, severity and text, whatever the write returns and also when the call
panics. -/
theorem log_resets_skip {α : Type} (env : Env α) (l : logger) (lType : Int)
    (str : GoString) :
    (l.log env lType str).1.skip = 0
    ∧ (l.log env lType str).1.meta = l.meta
    ∧ (l.log env lType str).1.logType = l.logType := by
  rw [log_state env l lType str]
  exact ⟨rfl, rfl, rfl⟩

/-- C8, as stated, fails: the call site is not resolved at depth `3 + 1` for every
package-level call.  When the `String` method of an operand itself logs through the
default instance, that nested call resets skip to 0 before the outer `caller` runs, and
`Info` resolves at depth 3, the frame of the package-level function, and writes
`glog/log.go:158` where depth `3 + 1` gives `main.go:12`. -/
theorem reentrant_operand_resolves_wrapper_frame :
    (Info (reentrantEnv wrapperStack (ascii "/w")) myLogger [ascii "hello"]).2
      = Outcome.wrote
          (ascii ("\x1b[1;32m2006-01-02 T15:04:05 Z \x1b[0m\x1b[1;34mglog/log.go:158 \x1b[0m" ++
            "\x1b[1;36m[INFO] \x1b[0mhello")) 84 none
    ∧ specOutcome (reentrantEnv wrapperStack (ascii "/w")) myLogger.meta myLogger.logType
          (wrapperStack (3 + 1)) Severity.info (ascii "hello")
      = Outcome.wrote
          (ascii ("\x1b[1;32m2006-01-02 T15:04:05 Z \x1b[0m\x1b[1;34mmain.go:12 \x1b[0m" ++
            "\x1b[1;36m[INFO] \x1b[0mhello")) 79 none
    ∧ (Info (reentrantEnv wrapperStack (ascii "/w")) myLogger [ascii "hello"]).2
      ≠ specOutcome (reentrantEnv wrapperStack (ascii "/w")) myLogger.meta myLogger.logType
          (wrapperStack (3 + 1)) Severity.info (ascii "hello") := by
  decide

/-- C8, amended: an instance method resolves the call site at depth `3 + skip`, for the
skip its receiver has when `log` runs (the sum as a Go int, taken here where it does not
overflow): the caller segment is the one of the frame at that depth, and the call does
with that frame what the specification says.  Every package-level function returns what
the method of the same name returns on the default instance with skip 1, whatever skip
the default instance had before.  `Log`, and every other package-level function whose
operands are rendered without a change to the default instance, resolves the call site
at depth `3 + 1`, writes the line of the specification for the frame at that depth, and
leaves the default instance with skip 0 and its meta and logType unchanged. -/
theorem package_level_resolves_at_depth_four {α : Type} (env : Env α) (g : logger)
    (sev : Severity) (lType : Int) (str format : GoString) (a : List α) (err1 : α)
    (hSprint : (env.Sprint a (g.Skip 1)).2 = g.Skip 1)
    (hSprintln : (env.Sprintln a (g.Skip 1)).2 = g.Skip 1)
    (hSprintf : (env.Sprintf format a (g.Skip 1)).2 = g.Skip 1)
    (hError : (env.Sprint [err1] (g.Skip 1)).2 = g.Skip 1)
    (hErrorln : (env.Sprintln [err1] (g.Skip 1)).2 = g.Skip 1) :
    (∀ l : logger, -2 ^ 63 ≤ l.skip → l.skip < 2 ^ 63 - 3 →
        l.caller env = frameSegment l.meta env.PWD (env.Caller (3 + l.skip))
        ∧ l.log env sev.const str =
            (⟨l.meta, l.logType, 0⟩,
              specOutcome env l.meta l.logType (env.Caller (3 + l.skip)) sev str))
    ∧ [Log env g lType str,
        Print env g a, Println env g a, Printf env g format a,
        Info env g a, Infoln env g a, Infof env g format a,
        Warn env g a, Warnln env g a, Warnf env g format a,
        Debug env g a, Debugln env g a, Debugf env g format a,
        Error env g err1, Errorln env g err1, Errorf env g format a]
      = [logger.Log env ⟨g.meta, g.logType, 1⟩ lType str,
        logger.Print env ⟨g.meta, g.logType, 1⟩ a,
        logger.Println env ⟨g.meta, g.logType, 1⟩ a,
        logger.Printf env ⟨g.meta, g.logType, 1⟩ format a,
        logger.Info env ⟨g.meta, g.logType, 1⟩ a,
        logger.Infoln env ⟨g.meta, g.logType, 1⟩ a,
        logger.Infof env ⟨g.meta, g.logType, 1⟩ format a,
        logger.Warn env ⟨g.meta, g.logType, 1⟩ a,
        logger.Warnln env ⟨g.meta, g.logType, 1⟩ a,
        logger.Warnf env ⟨g.meta, g.logType, 1⟩ format a,
        logger.Debug env ⟨g.meta, g.logType, 1⟩ a,
        logger.Debugln env ⟨g.meta, g.logType, 1⟩ a,
        logger.Debugf env ⟨g.meta, g.logType, 1⟩ format a,
        logger.Error env ⟨g.meta, g.logType, 1⟩ err1,
        logger.Errorln env ⟨g.meta, g.logType, 1⟩ err1,
        logger.Errorf env ⟨g.meta, g.logType, 1⟩ format a]
    ∧ (Log env g lType str).1 = ⟨g.meta, g.logType, 0⟩
    ∧ ((Log env g lType str).2 = Outcome.panic ↔
        frameSegment g.meta env.PWD (env.Caller (3 + 1)) = none)
    ∧ Log env g sev.const str =
        (⟨g.meta, g.logType, 0⟩,
          specOutcome env g.meta g.logType (env.Caller (3 + 1)) sev str)
    ∧ [Print env g a, Println env g a, Printf env g format a,
        Info env g a, Infoln env g a, Infof env g format a,
        Warn env g a, Warnln env g a, Warnf env g format a,
        Debug env g a, Debugln env g a, Debugf env g format a,
        Error env g err1, Errorln env g err1, Errorf env g format a]
      = [(⟨g.meta, g.logType, 0⟩, specOutcome env g.meta g.logType (env.Caller (3 + 1))
            Severity.plain (env.Sprint a (g.Skip 1)).1),
        (⟨g.meta, g.logType, 0⟩, specOutcome env g.meta g.logType (env.Caller (3 + 1))
            Severity.plain (env.Sprintln a (g.Skip 1)).1),
        (⟨g.meta, g.logType, 0⟩, specOutcome env g.meta g.logType (env.Caller (3 + 1))
            Severity.plain (env.Sprintf format a (g.Skip 1)).1),
        (⟨g.meta, g.logType, 0⟩, specOutcome env g.meta g.logType (env.Caller (3 + 1))
            Severity.info (env.Sprint a (g.Skip 1)).1),
        (⟨g.meta, g.logType, 0⟩, specOutcome env g.meta g.logType (env.Caller (3 + 1))
            Severity.info (env.Sprintln a (g.Skip 1)).1),
        (⟨g.meta, g.logType, 0⟩, specOutcome env g.meta g.logType (env.Caller (3 + 1))
            Severity.info (env.Sprintf format a (g.Skip 1)).1),
        (⟨g.meta, g.logType, 0⟩, specOutcome env g.meta g.logType (env.Caller (3 + 1))
            Severity.warn (env.Sprint a (g.Skip 1)).1),
        (⟨g.meta, g.logType, 0⟩, specOutcome env g.meta g.logType (env.Caller (3 + 1))
            Severity.warn (env.Sprintln a (g.Skip 1)).1),
        (⟨g.meta, g.logType, 0⟩, specOutcome env g.meta g.logType (env.Caller (3 + 1))
            Severity.warn (env.Sprintf format a (g.Skip 1)).1),
        (⟨g.meta, g.logType, 0⟩, specOutcome env g.meta g.logType (env.Caller (3 + 1))
            Severity.debug (env.Sprint a (g.Skip 1)).1),
        (⟨g.meta, g.logType, 0⟩, specOutcome env g.meta g.logType (env.Caller (3 + 1))
            Severity.debug (env.Sprintln a (g.Skip 1)).1),
        (⟨g.meta, g.logType, 0⟩, specOutcome env g.meta g.logType (env.Caller (3 + 1))
            Severity.debug (env.Sprintf format a (g.Skip 1)).1),
        (⟨g.meta, g.logType, 0⟩, specOutcome env g.meta g.logType (env.Caller (3 + 1))
            Severity.error (env.Sprint [err1] (g.Skip 1)).1),
        (⟨g.meta, g.logType, 0⟩, specOutcome env g.meta g.logType (env.Caller (3 + 1))
            Severity.error (env.Sprintln [err1] (g.Skip 1)).1),
        (⟨g.meta, g.logType, 0⟩, specOutcome env g.meta g.logType (env.Caller (3 + 1))
            Severity.error (env.Sprintf format a (g.Skip 1)).1)] := by
  have hone : ∀ (s : Severity) (text : GoString),
      (g.Skip 1).log env s.const text =
        (⟨g.meta, g.logType, 0⟩,
          specOutcome env g.meta g.logType (env.Caller (3 + 1)) s text) := by
    intro s text
    rw [log_eq_specOutcome env (g.Skip 1) s text, callerDepth_skip_one]
    rfl
  have hvia : ∀ (r : GoString × logger) (s : Severity), r.2 = g.Skip 1 →
      r.2.log env s.const r.1 =
        (⟨g.meta, g.logType, 0⟩,
          specOutcome env g.meta g.logType (env.Caller (3 + 1)) s r.1) := by
    intro r s hr
    rw [hr]
    exact hone s r.1
  refine ⟨?_, rfl, log_state env (g.Skip 1) lType str, ?_, hone sev str, ?_⟩
  · intro l hlo hhi
    have hd : l.callerDepth = 3 + l.skip := by
      unfold logger.callerDepth
      exact toInt_of_range _ (by omega) (by omega)
    constructor
    · rw [caller_eq_frameSegment, hd]
    · rw [log_eq_specOutcome env l sev str, hd]
  · show ((g.Skip 1).log env lType str).2 = Outcome.panic ↔ _
    have hseg : (g.Skip 1).caller env = frameSegment g.meta env.PWD (env.Caller (3 + 1)) := by
      rw [caller_eq_frameSegment, callerDepth_skip_one]
      rfl
    rw [← hseg]
    constructor
    · intro hp
      cases hcl : (g.Skip 1).caller env with
      | none => rfl
      | some c =>
        rw [log_wrote env (g.Skip 1) lType str c hcl] at hp
        simp at hp
    · intro hn
      exact log_panic env (g.Skip 1) lType str hn
  · have e1 : Print env g a = _ := hvia (env.Sprint a (g.Skip 1)) Severity.plain hSprint
    have e2 : Println env g a = _ := hvia (env.Sprintln a (g.Skip 1)) Severity.plain hSprintln
    have e3 : Printf env g format a = _ :=
      hvia (env.Sprintf format a (g.Skip 1)) Severity.plain hSprintf
    have e4 : Info env g a = _ := hvia (env.Sprint a (g.Skip 1)) Severity.info hSprint
    have e5 : Infoln env g a = _ := hvia (env.Sprintln a (g.Skip 1)) Severity.info hSprintln
    have e6 : Infof env g format a = _ :=
      hvia (env.Sprintf format a (g.Skip 1)) Severity.info hSprintf
    have e7 : Warn env g a = _ := hvia (env.Sprint a (g.Skip 1)) Severity.warn hSprint
    have e8 : Warnln env g a = _ := hvia (env.Sprintln a (g.Skip 1)) Severity.warn hSprintln
    have e9 : Warnf env g format a = _ :=
      hvia (env.Sprintf format a (g.Skip 1)) Severity.warn hSprintf
    have e10 : Debug env g a = _ := hvia (env.Sprint a (g.Skip 1)) Severity.debug hSprint
    have e11 : Debugln env g a = _ := hvia (env.Sprintln a (g.Skip 1)) Severity.debug hSprintln
    have e12 : Debugf env g format a = _ :=
      hvia (env.Sprintf format a (g.Skip 1)) Severity.debug hSprintf
    have e13 : Error env g err1 = _ := hvia (env.Sprint [err1] (g.Skip 1)) Severity.error hError
    have e14 : Errorln env g err1 = _ :=
      hvia (env.Sprintln [err1] (g.Skip 1)) Severity.error hErrorln
    have e15 : Errorf env g format a = _ :=
      hvia (env.Sprintf format a (g.Skip 1)) Severity.error hSprintf
    rw [e1, e2, e3, e4, e5, e6, e7, e8, e9, e10, e11, e12, e13, e14, e15]

theorem package_level_resolves_at_depth_four_witness :
    ((sampleEnv wrapperStack (ascii "/w")).Sprint [ascii "hello"] ((myLogger.Skip 5).Skip 1)).2
        = (myLogger.Skip 5).Skip 1
    ∧ Info (sampleEnv wrapperStack (ascii "/w")) (myLogger.Skip 5) [ascii "hello"]
        = (⟨myLogger.meta, myLogger.logType, 0⟩,
            specOutcome (sampleEnv wrapperStack (ascii "/w")) myLogger.meta myLogger.logType
              ((sampleEnv wrapperStack (ascii "/w")).Caller (3 + 1)) Severity.info
              ((sampleEnv wrapperStack (ascii "/w")).Sprint [ascii "hello"]
                ((myLogger.Skip 5).Skip 1)).1)
    ∧ (Info (sampleEnv wrapperStack (ascii "/w")) (myLogger.Skip 5) [ascii "hello"]).2
        = Outcome.wrote
            (ascii ("\x1b[1;32m2006-01-02 T15:04:05 Z \x1b[0m\x1b[1;34mmain.go:12 \x1b[0m" ++
              "\x1b[1;36m[INFO] \x1b[0mhello")) 79 none :=
  ⟨rfl,
    (List.cons.inj (List.cons.inj (List.cons.inj (List.cons.inj
      (package_level_resolves_at_depth_four (sampleEnv wrapperStack (ascii "/w"))
        (myLogger.Skip 5) Severity.info 0 [] [] [ascii "hello"] []
        rfl rfl rfl rfl rfl).2.2.2.2.2).2).2).2).1,
    by decide⟩

/-- C9: an instance made by `New(0, 0)` hands to its one write, for every severity
argument and every text, exactly the Green template around the empty string, the Blue
template around the empty string, and the text, and returns what that write returns; no
severity label and no severity colour is written. -/
theorem new_zero_line {α : Type} (env : Env α) (lType : Int) (text : GoString) :
    ((New 0 0).Log env lType text).2 =
        Outcome.wrote (ascii "\x1b[1;32m\x1b[0m" ++ ascii "\x1b[1;34m\x1b[0m" ++ text)
          (env.Print (ascii "\x1b[1;32m\x1b[0m" ++ ascii "\x1b[1;34m\x1b[0m" ++ text)).1
          (env.Print (ascii "\x1b[1;32m\x1b[0m" ++ ascii "\x1b[1;34m\x1b[0m" ++ text)).2
    ∧ ((New 0 0).log env lType text).2 =
        Outcome.wrote (ascii "\x1b[1;32m\x1b[0m" ++ ascii "\x1b[1;34m\x1b[0m" ++ text)
          (env.Print (ascii "\x1b[1;32m\x1b[0m" ++ ascii "\x1b[1;34m\x1b[0m" ++ text)).1
          (env.Print (ascii "\x1b[1;32m\x1b[0m" ++ ascii "\x1b[1;34m\x1b[0m" ++ text)).2
    ∧ ascii "\x1b[1;32m\x1b[0m" ++ ascii "\x1b[1;34m\x1b[0m" ++ text
        = substitute Green [] ++ substitute Blue [] ++ text := by
  have hc : (New 0 0).caller env = some [] :=
    caller_neither env (New 0 0) (by decide) (by decide)
  have hts : (New 0 0).timeFormatStr = [] := by decide
  have hz : ¬ Int.land (New 0 0).logType lType > 0 := zero_land_not_pos lType
  have hG : substitute Green [] = ascii "\x1b[1;32m\x1b[0m" := by decide
  have hB : substitute Blue [] = ascii "\x1b[1;34m\x1b[0m" := by decide
  have hline : ((New 0 0).log env lType text).2 =
      Outcome.wrote (ascii "\x1b[1;32m\x1b[0m" ++ ascii "\x1b[1;34m\x1b[0m" ++ text)
        (env.Print (ascii "\x1b[1;32m\x1b[0m" ++ ascii "\x1b[1;34m\x1b[0m" ++ text)).1
        (env.Print (ascii "\x1b[1;32m\x1b[0m" ++ ascii "\x1b[1;34m\x1b[0m" ++ text)).2 := by
    rw [log_wrote env (New 0 0) lType text [] hc, hts, env.Format_empty]
    unfold specLine
    rw [if_neg hz, List.append_nil, hG, hB]
  refine ⟨hline, hline, ?_⟩
  rw [hG, hB]

/-- C10: with the short-caller bit set and call-site resolution giving `path` and `line`,
the slice expression of `caller` panics if and only if what `TrimPrefix` leaves is empty,
that is if and only if the path is empty or equal to the working-directory value; the
logging call panics in exactly that case.  It does not panic when the working-directory
value is a proper prefix of the path, and with an empty working-directory value and a
non-empty path it renders the path without its first byte. -/
theorem short_caller_panic_iff {α : Type} (env : Env α) (l : logger) (path : GoString)
    (line : Int) (h4 : l.meta.testBit 4 = true)
    (hcall : env.Caller l.callerDepth = some (path, line)) :
    (l.caller env = none ↔ TrimPrefix path env.PWD = [])
    ∧ (l.caller env = none ↔ (path = [] ∨ path = env.PWD))
    ∧ (∀ (lType : Int) (str : GoString),
        (l.log env lType str).2 = Outcome.panic ↔ (path = [] ∨ path = env.PWD))
    ∧ (∀ rest : GoString, rest ≠ [] → path = env.PWD ++ rest → l.caller env ≠ none)
    ∧ (∀ (c : Byte) (rest : GoString), env.PWD = [] → path = c :: rest →
        l.caller env = some (rest ++ ascii ":" ++ itoa line ++ ascii " ")) := by
  have hform := caller_short_eq env l path line h4 hcall
  have h1 : l.caller env = none ↔ TrimPrefix path env.PWD = [] := by
    rw [hform, Option.map_eq_none', sliceFrom_one_eq_none_iff]
  have h2 : l.caller env = none ↔ (path = [] ∨ path = env.PWD) := by
    rw [h1, TrimPrefix_eq_nil_iff]
  refine ⟨h1, h2, ?_, ?_, ?_⟩
  · intro lType str
    rw [← h2]
    constructor
    · intro hp
      cases hcl : l.caller env with
      | none => rfl
      | some c =>
        rw [log_wrote env l lType str c hcl] at hp
        simp at hp
    · intro hn
      exact log_panic env l lType str hn
  · intro rest hrest hpath hn
    rw [h1, hpath, TrimPrefix_append] at hn
    exact hrest hn
  · intro c rest hpwd hpath
    rw [hform, hpwd, hpath]
    have ht : TrimPrefix (c :: rest) [] = c :: rest := by
      simpa using TrimPrefix_append [] (c :: rest)
    rw [ht, sliceFrom_one_cons]
    rfl

theorem short_caller_panic_iff_witness :
    (New MetaCallerShort 0).meta.testBit 4 = true
    ∧ (sampleEnv sampleStack (ascii "/w/a.go")).Caller (New MetaCallerShort 0).callerDepth
        = some (ascii "/w/a.go", 7)
    ∧ ((New MetaCallerShort 0).caller (sampleEnv sampleStack (ascii "/w/a.go")) = none ↔
        (ascii "/w/a.go" = [] ∨ ascii "/w/a.go" = (sampleEnv sampleStack (ascii "/w/a.go")).PWD))
    ∧ (New MetaCallerShort 0).caller (sampleEnv sampleStack (ascii "/w/a.go")) = none :=
  ⟨by decide, by decide,
    (short_caller_panic_iff (sampleEnv sampleStack (ascii "/w/a.go")) (New MetaCallerShort 0)
      (ascii "/w/a.go") 7 (by decide) (by decide)).2.1,
    by decide⟩

end Glog
